import Mathlib

/-!
Verification development for the `TravelPassFHE` contract.

The contract is shallowly embedded: contract storage becomes the structure
`ContractState`, each external function becomes a Lean function
`ContractState → … → Except Err ContractState` (Solidity `revert` is the
`Except.error` case, and a reverted call leaves the state unchanged), and
uint256 values become `Nat` together with the explicit bound `U = 2 ^ 256`;
Solidity 0.8 checked addition that would exceed the bound is modelled as the
arithmetic panic `Err.PanicArith`.

Ciphertext handles (`euint32` / `ebool`, both `bytes32` words on chain) and
`keccak256` digests are modelled symbolically by the free datatype `B32`:
distinct constructor trees denote distinct 256-bit words, which models
collision-free hashing and the fact that freshly derived FHE handles are
nonzero.  The external decryption oracle is modelled by passing the oracle
chosen request id into the request functions and the signature-check verdict
into the callback.
-/

namespace TravelPass

/-- `2 ^ 256`, the number of values of a uint256 word. -/
def U : Nat := 2 ^ 256

/-- Symbolic 256-bit words: raw words, FHE-derived ciphertext handles
(`FHE.eq`, `FHE.ge` results), `abi.encode` cells for `bytes32[]` arrays, and
`keccak256` digests.  Distinct trees model distinct words, which captures
collision-free hashing and that derived handles are fresh nonzero words. -/
inductive B32 where
  | word (n : Nat)
  | fheEq (a b : B32)
  | fheGe (a b : B32)
  | encNil
  | encCons (hd tl : B32)
  | keccak (enc : B32) (addr : Nat)
deriving DecidableEq, Repr

/-- `abi.encode` of a `bytes32[]` array, as an injective tree. -/
def abiEncodeCts : List B32 → B32
  | [] => .encNil
  | x :: xs => .encCons x (abiEncodeCts xs)

/-- `FHE.isInitialized`: a handle is initialised iff it is not the zero word. -/
def isInit (h : B32) : Bool := h != B32.word 0

/-- The two passport attributes (enum `PassportAttribute`). -/
inductive PassportAttribute where
  | Nationality
  | VisaStatus
deriving DecidableEq, Repr

/-- struct `PassportData`. -/
structure PassportData where
  encryptedNationality : B32
  encryptedVisaExpiryTimestamp : B32
deriving DecidableEq, Repr

/-- struct `DecryptionContext`. -/
structure DecryptionContext where
  batchId : Nat
  stateHash : B32
  processed : Bool
deriving DecidableEq, Repr

/-- struct `Batch`. -/
structure Batch where
  isOpen : Bool
  createdAt : Nat
  closedAt : Nat
deriving DecidableEq, Repr

/-- Solidity mapping default for `PassportData`. -/
def defaultPassport : PassportData := ⟨B32.word 0, B32.word 0⟩

/-- Solidity mapping default for `DecryptionContext`. -/
def defaultCtx : DecryptionContext := ⟨0, B32.word 0, false⟩

/-- Solidity mapping default for `Batch`. -/
def defaultBatch : Batch := ⟨false, 0, 0⟩

/-- Point update of a one-key mapping. -/
def upd {α : Type} (f : Nat → α) (k : Nat) (v : α) : Nat → α :=
  fun x => if x = k then v else f x

/-- Point update of a two-key mapping. -/
def upd2 {α : Type} (f : Nat → Nat → α) (k1 k2 : Nat) (v : α) : Nat → Nat → α :=
  fun x y => if x = k1 ∧ y = k2 then v else f x y

/-- The contract storage of `TravelPassFHE`.  `selfAddr` is `address(this)`
(fixed at deployment); `paused` is the flag consulted by `whenNotPaused`. -/
structure ContractState where
  owner : Nat
  isProvider : Nat → Bool
  lastSubmissionTime : Nat → Nat
  lastDecryptionRequestTime : Nat → Nat
  cooldownSeconds : Nat
  currentBatchId : Nat
  batches : Nat → Batch
  userPassportData : Nat → Nat → PassportData
  hasSubmittedForBatch : Nat → Nat → Bool
  decryptionContexts : Nat → DecryptionContext
  paused : Bool
  selfAddr : Nat

/-- The contract's custom errors, the string revert of the duplicate-submission
check, and the Solidity 0.8 checked-arithmetic panic. -/
inductive Err where
  | NotOwner
  | NotProvider
  | Paused
  | CooldownActive
  | BatchClosed
  | BatchNotClosed
  | InvalidCooldown
  | ReplayDetected
  | StateMismatch
  | InvalidProof
  | NotInitialized
  | InvalidBatchId
  | DuplicateProvider
  | ProviderNotAdded
  | RevertMsg (s : String)
  | PanicArith
deriving DecidableEq, Repr

/-- The message of `revert("User already submitted for this batch")`. -/
def duplicateSubmissionMsg : String := "User already submitted for this batch"

/-- Modifier `respectCooldown(_user, _lastActionTime)`: reverts with
`CooldownActive` while `block.timestamp < _lastActionTime[_user] + cooldownSeconds`;
the checked uint256 addition panics when the sum leaves the uint256 range. -/
def respectCooldown (now lastTime cooldown : Nat) : Except Err Unit :=
  if U ≤ lastTime + cooldown then .error .PanicArith
  else if now < lastTime + cooldown then .error .CooldownActive
  else .ok ()

/-- `keccak256(abi.encode(cts, address(this)))` (`_hashCiphertexts`). -/
def hashCiphertexts (cts : List B32) (addr : Nat) : B32 :=
  B32.keccak (abiEncodeCts cts) addr

/-- `_rebuildStateHashForCallback`: the source cannot reconstruct the original
ciphertext, stores `bytes32(0)` as a placeholder in the singleton array and
hashes that; the request id is not consulted. -/
def rebuildStateHashForCallback (s : ContractState) (_requestId : Nat) : B32 :=
  hashCiphertexts [B32.word 0] s.selfAddr

/-- The constructor: deployer becomes owner and batch 1 is opened. -/
def initialState (deployer deployTime selfA : Nat) : ContractState where
  owner := deployer
  isProvider := fun _ => false
  lastSubmissionTime := fun _ => 0
  lastDecryptionRequestTime := fun _ => 0
  cooldownSeconds := 30
  currentBatchId := 1
  batches := upd (fun _ => defaultBatch) 1 ⟨true, deployTime, 0⟩
  userPassportData := fun _ _ => defaultPassport
  hasSubmittedForBatch := fun _ _ => false
  decryptionContexts := fun _ => defaultCtx
  paused := false
  selfAddr := selfA

/-- `transferOwnership`. -/
def transferOwnership (s : ContractState) (sender newOwner : Nat) :
    Except Err ContractState :=
  if sender ≠ s.owner then .error .NotOwner
  else .ok { s with owner := newOwner }

/-- `addProvider`. -/
def addProvider (s : ContractState) (sender p : Nat) : Except Err ContractState :=
  if sender ≠ s.owner then .error .NotOwner
  else if s.isProvider p then .error .DuplicateProvider
  else .ok { s with isProvider := fun a => if a = p then true else s.isProvider a }

/-- `removeProvider`. -/
def removeProvider (s : ContractState) (sender p : Nat) : Except Err ContractState :=
  if sender ≠ s.owner then .error .NotOwner
  else if !(s.isProvider p) then .error .ProviderNotAdded
  else .ok { s with isProvider := fun a => if a = p then false else s.isProvider a }

/-- `setCooldown`. -/
def setCooldown (s : ContractState) (sender v : Nat) : Except Err ContractState :=
  if sender ≠ s.owner then .error .NotOwner
  else if v = 0 then .error .InvalidCooldown
  else .ok { s with cooldownSeconds := v }

/-- `pause`.  Modelled from the spec: the `paused` flag and the inherited
`_pause` helper are not in the source tree; the spec says the owner toggles a
global `paused` flag. -/
def pause (s : ContractState) (sender : Nat) : Except Err ContractState :=
  if sender ≠ s.owner then .error .NotOwner
  else .ok { s with paused := true }

/-- `unpause`.  Modelled from the spec, as for `pause`. -/
def unpause (s : ContractState) (sender : Nat) : Except Err ContractState :=
  if sender ≠ s.owner then .error .NotOwner
  else .ok { s with paused := false }

/-- `openNewBatch`: increments `currentBatchId` (checked) and opens the new id
via `_openNewBatch` (fresh `Batch` with `createdAt = block.timestamp`). -/
def openNewBatch (s : ContractState) (sender now : Nat) : Except Err ContractState :=
  if sender ≠ s.owner then .error .NotOwner
  else if U ≤ s.currentBatchId + 1 then .error .PanicArith
  else .ok { s with
    currentBatchId := s.currentBatchId + 1
    batches := upd s.batches (s.currentBatchId + 1) ⟨true, now, 0⟩ }

/-- `closeCurrentBatch`: `_closeBatch(currentBatchId)` (reverts `BatchClosed`
when not open, else records `closedAt`), then increments `currentBatchId`. -/
def closeCurrentBatch (s : ContractState) (sender now : Nat) : Except Err ContractState :=
  if sender ≠ s.owner then .error .NotOwner
  else if !(s.batches s.currentBatchId).isOpen then .error .BatchClosed
  else if U ≤ s.currentBatchId + 1 then .error .PanicArith
  else .ok { s with
    currentBatchId := s.currentBatchId + 1
    batches := upd s.batches s.currentBatchId
      ⟨false, (s.batches s.currentBatchId).createdAt, now⟩ }

/-- `submitPassportData`: modifiers `onlyProvider`, `whenNotPaused`,
`respectCooldown(user, lastSubmissionTime)` in order, then the batch-open
check, the duplicate check (a string revert), the two `_initIfNeeded` checks,
and finally the writes. -/
def submitPassportData (s : ContractState) (sender now user : Nat)
    (encNat encVisa : B32) : Except Err ContractState :=
  if !(s.isProvider sender) then .error .NotProvider
  else if s.paused then .error .Paused
  else match respectCooldown now (s.lastSubmissionTime user) s.cooldownSeconds with
  | .error e => .error e
  | .ok _ =>
    if !(s.batches s.currentBatchId).isOpen then .error .BatchClosed
    else if s.hasSubmittedForBatch s.currentBatchId user then
      .error (.RevertMsg duplicateSubmissionMsg)
    else if !(isInit encNat) then .error .NotInitialized
    else if !(isInit encVisa) then .error .NotInitialized
    else .ok { s with
      userPassportData := upd2 s.userPassportData s.currentBatchId user ⟨encNat, encVisa⟩
      hasSubmittedForBatch := upd2 s.hasSubmittedForBatch s.currentBatchId user true
      lastSubmissionTime := upd s.lastSubmissionTime user now }

/-- `requestVerifyNationality`: guards in source order, computes the encrypted
equality result, hashes the singleton ciphertext list together with
`address(this)`, and records the pending `DecryptionContext` under the
oracle-assigned `requestId`. -/
def requestVerifyNationality (s : ContractState) (sender now user forBatchId : Nat)
    (query : B32) (requestId : Nat) : Except Err ContractState :=
  if !(s.isProvider sender) then .error .NotProvider
  else if s.paused then .error .Paused
  else match respectCooldown now (s.lastDecryptionRequestTime user) s.cooldownSeconds with
  | .error e => .error e
  | .ok _ =>
    if forBatchId > s.currentBatchId ∨ forBatchId = 0 then .error .InvalidBatchId
    else if (s.batches forBatchId).isOpen then .error .BatchNotClosed
    else if !(isInit (s.userPassportData forBatchId user).encryptedNationality) then
      .error .NotInitialized
    else if !(isInit query) then .error .NotInitialized
    else
      let encryptedResult :=
        B32.fheEq (s.userPassportData forBatchId user).encryptedNationality query
      let stateHash := hashCiphertexts [encryptedResult] s.selfAddr
      .ok { s with
        decryptionContexts := upd s.decryptionContexts requestId
          ⟨forBatchId, stateHash, false⟩
        lastDecryptionRequestTime := upd s.lastDecryptionRequestTime user now }

/-- `requestVerifyVisaStatus`: as `requestVerifyNationality` but with the
greater-or-equal comparison on the stored visa-expiry handle. -/
def requestVerifyVisaStatus (s : ContractState) (sender now user forBatchId : Nat)
    (query : B32) (requestId : Nat) : Except Err ContractState :=
  if !(s.isProvider sender) then .error .NotProvider
  else if s.paused then .error .Paused
  else match respectCooldown now (s.lastDecryptionRequestTime user) s.cooldownSeconds with
  | .error e => .error e
  | .ok _ =>
    if forBatchId > s.currentBatchId ∨ forBatchId = 0 then .error .InvalidBatchId
    else if (s.batches forBatchId).isOpen then .error .BatchNotClosed
    else if !(isInit (s.userPassportData forBatchId user).encryptedVisaExpiryTimestamp) then
      .error .NotInitialized
    else if !(isInit query) then .error .NotInitialized
    else
      let encryptedResult :=
        B32.fheGe (s.userPassportData forBatchId user).encryptedVisaExpiryTimestamp query
      let stateHash := hashCiphertexts [encryptedResult] s.selfAddr
      .ok { s with
        decryptionContexts := upd s.decryptionContexts requestId
          ⟨forBatchId, stateHash, false⟩
        lastDecryptionRequestTime := upd s.lastDecryptionRequestTime user now }

/-- `abi.decode(cleartexts, (uint32))`, with the byte string modelled as the
number it encodes. -/
def decodeUint32 (cleartexts : Nat) : Nat := cleartexts % 2 ^ 32

/-- The `DecryptionCompleted` event payload; `attrKind` is the event's
`attribute` field (renamed: `attribute` is a Lean keyword). -/
structure CompletionEv where
  requestId : Nat
  batchId : Nat
  user : Nat
  attrKind : PassportAttribute
  result : Nat
deriving DecidableEq, Repr

/-- `myCallback`: no modifiers; replay check, state-hash check against the
rebuilt (placeholder) hash, signature check via the external
`FHE.checkSignatures` capability `checkSigs`, then marks the context processed
and emits `DecryptionCompleted` with `msg.sender` in the user slot and
`PassportAttribute(0)` as the attribute. -/
def myCallback (checkSigs : Nat → Nat → Nat → Bool) (s : ContractState)
    (sender requestId cleartexts proof : Nat) :
    Except Err (ContractState × CompletionEv) :=
  if (s.decryptionContexts requestId).processed then .error .ReplayDetected
  else if rebuildStateHashForCallback s requestId ≠
      (s.decryptionContexts requestId).stateHash then .error .StateMismatch
  else if !(checkSigs requestId cleartexts proof) then .error .InvalidProof
  else
    let result := decodeUint32 cleartexts
    .ok ({ s with
            decryptionContexts := upd s.decryptionContexts requestId
              { s.decryptionContexts requestId with processed := true } },
         ⟨requestId, (s.decryptionContexts requestId).batchId, sender,
          PassportAttribute.Nationality, result⟩)

/-- One external call, for trace reasoning. -/
inductive Op where
  | transferOwnership (sender newOwner : Nat)
  | addProvider (sender p : Nat)
  | removeProvider (sender p : Nat)
  | setCooldown (sender v : Nat)
  | pause (sender : Nat)
  | unpause (sender : Nat)
  | openNewBatch (sender now : Nat)
  | closeCurrentBatch (sender now : Nat)
  | submitPassportData (sender now user : Nat) (encNat encVisa : B32)
  | requestVerifyNationality (sender now user forBatchId : Nat) (query : B32) (requestId : Nat)
  | requestVerifyVisaStatus (sender now user forBatchId : Nat) (query : B32) (requestId : Nat)
  | myCallback (sender requestId cleartexts proof : Nat)
deriving DecidableEq, Repr

/-- Dispatch one call.  `checkSigs` is the external signature-check oracle. -/
def step (checkSigs : Nat → Nat → Nat → Bool) (op : Op) (s : ContractState) :
    Except Err ContractState :=
  match op with
  | .transferOwnership sender newOwner => transferOwnership s sender newOwner
  | .addProvider sender p => addProvider s sender p
  | .removeProvider sender p => removeProvider s sender p
  | .setCooldown sender v => setCooldown s sender v
  | .pause sender => pause s sender
  | .unpause sender => unpause s sender
  | .openNewBatch sender now => openNewBatch s sender now
  | .closeCurrentBatch sender now => closeCurrentBatch s sender now
  | .submitPassportData sender now user e1 e2 => submitPassportData s sender now user e1 e2
  | .requestVerifyNationality sender now user b q rid =>
      requestVerifyNationality s sender now user b q rid
  | .requestVerifyVisaStatus sender now user b q rid =>
      requestVerifyVisaStatus s sender now user b q rid
  | .myCallback sender rid ct pf =>
      (myCallback checkSigs s sender rid ct pf).map Prod.fst

/-- Execute one call with revert semantics: a failing call leaves the state
unchanged. -/
def exec (checkSigs : Nat → Nat → Nat → Bool) (op : Op) (s : ContractState) :
    ContractState :=
  match step checkSigs op s with
  | .ok s1 => s1
  | .error _ => s

/-- Run a list of calls. -/
def run (checkSigs : Nat → Nat → Nat → Bool) (s : ContractState) :
    List Op → ContractState
  | [] => s
  | op :: rest => run checkSigs (exec checkSigs op s) rest

/-- A state reachable from deployment by some call sequence under some
signature oracle. -/
def Reachable (s : ContractState) : Prop :=
  ∃ checkSigs deployer deployTime selfA ops,
    run checkSigs (initialState deployer deployTime selfA) ops = s

end TravelPass

namespace TravelPass

/-- The oracle-assigned request id consumed by an operation, when any. -/
def oracleRequestId : Op → Option Nat
  | .requestVerifyNationality _ _ _ _ _ rid => some rid
  | .requestVerifyVisaStatus _ _ _ _ _ rid => some rid
  | _ => none

/-- The user address an operation names for cooldown accounting, when any. -/
def namedUser : Op → Option Nat
  | .submitPassportData _ _ user _ _ => some user
  | .requestVerifyNationality _ _ user _ _ _ => some user
  | .requestVerifyVisaStatus _ _ user _ _ _ => some user
  | _ => none

/-- A signature oracle that accepts everything (used in concrete runs). -/
def oracleTrue : Nat → Nat → Nat → Bool := fun _ _ _ => true

lemma run_cons (checkSigs : Nat → Nat → Nat → Bool) (s : ContractState)
    (op : Op) (ops : List Op) :
    run checkSigs s (op :: ops) = run checkSigs (exec checkSigs op s) ops := rfl

lemma transferOwnership_ok_iff {s s1 : ContractState} {sender newOwner : Nat} :
    transferOwnership s sender newOwner = .ok s1 ↔
      sender = s.owner ∧ s1 = { s with owner := newOwner } := by
  unfold transferOwnership
  split_ifs with h1 <;> simp_all <;> try exact eq_comm

lemma addProvider_ok_iff {s s1 : ContractState} {sender p : Nat} :
    addProvider s sender p = .ok s1 ↔
      sender = s.owner ∧ s.isProvider p = false ∧
      s1 = { s with isProvider := fun a => if a = p then true else s.isProvider a } := by
  unfold addProvider
  split_ifs with h1 h2 <;> simp_all <;> try exact eq_comm

lemma removeProvider_ok_iff {s s1 : ContractState} {sender p : Nat} :
    removeProvider s sender p = .ok s1 ↔
      sender = s.owner ∧ s.isProvider p = true ∧
      s1 = { s with isProvider := fun a => if a = p then false else s.isProvider a } := by
  unfold removeProvider
  split_ifs with h1 h2 <;> simp_all <;> try exact eq_comm

lemma setCooldown_ok_iff {s s1 : ContractState} {sender v : Nat} :
    setCooldown s sender v = .ok s1 ↔
      sender = s.owner ∧ v ≠ 0 ∧ s1 = { s with cooldownSeconds := v } := by
  unfold setCooldown
  split_ifs with h1 h2 <;> simp_all <;> try exact eq_comm

lemma pause_ok_iff {s s1 : ContractState} {sender : Nat} :
    pause s sender = .ok s1 ↔ sender = s.owner ∧ s1 = { s with paused := true } := by
  unfold pause
  split_ifs with h1 <;> simp_all <;> try exact eq_comm

lemma unpause_ok_iff {s s1 : ContractState} {sender : Nat} :
    unpause s sender = .ok s1 ↔ sender = s.owner ∧ s1 = { s with paused := false } := by
  unfold unpause
  split_ifs with h1 <;> simp_all <;> try exact eq_comm

lemma openNewBatch_ok_iff {s s1 : ContractState} {sender now : Nat} :
    openNewBatch s sender now = .ok s1 ↔
      sender = s.owner ∧ s.currentBatchId + 1 < U ∧
      s1 = { s with
        currentBatchId := s.currentBatchId + 1
        batches := upd s.batches (s.currentBatchId + 1) ⟨true, now, 0⟩ } := by
  unfold openNewBatch
  split_ifs with h1 h2 <;> simp_all <;> try exact eq_comm

lemma closeCurrentBatch_ok_iff {s s1 : ContractState} {sender now : Nat} :
    closeCurrentBatch s sender now = .ok s1 ↔
      sender = s.owner ∧ (s.batches s.currentBatchId).isOpen = true ∧
      s.currentBatchId + 1 < U ∧
      s1 = { s with
        currentBatchId := s.currentBatchId + 1
        batches := upd s.batches s.currentBatchId
          ⟨false, (s.batches s.currentBatchId).createdAt, now⟩ } := by
  unfold closeCurrentBatch
  split_ifs with h1 h2 h3 <;> simp_all <;> try exact eq_comm

lemma submitPassportData_ok_iff {s s1 : ContractState} {sender now user : Nat}
    {e1 e2 : B32} :
    submitPassportData s sender now user e1 e2 = .ok s1 ↔
      s.isProvider sender = true ∧ s.paused = false ∧
      respectCooldown now (s.lastSubmissionTime user) s.cooldownSeconds = .ok () ∧
      (s.batches s.currentBatchId).isOpen = true ∧
      s.hasSubmittedForBatch s.currentBatchId user = false ∧
      isInit e1 = true ∧ isInit e2 = true ∧
      s1 = { s with
        userPassportData := upd2 s.userPassportData s.currentBatchId user ⟨e1, e2⟩
        hasSubmittedForBatch := upd2 s.hasSubmittedForBatch s.currentBatchId user true
        lastSubmissionTime := upd s.lastSubmissionTime user now } := by
  unfold submitPassportData
  rcases hR : respectCooldown now (s.lastSubmissionTime user) s.cooldownSeconds with e | u0
  · simp only [hR]
    split_ifs <;> simp_all
  · cases u0
    simp only [hR]
    split_ifs <;> simp_all <;> try exact eq_comm

lemma requestVerifyNationality_ok_iff {s s1 : ContractState}
    {sender now user forBatchId requestId : Nat} {query : B32} :
    requestVerifyNationality s sender now user forBatchId query requestId = .ok s1 ↔
      s.isProvider sender = true ∧ s.paused = false ∧
      respectCooldown now (s.lastDecryptionRequestTime user) s.cooldownSeconds = .ok () ∧
      ¬(forBatchId > s.currentBatchId ∨ forBatchId = 0) ∧
      (s.batches forBatchId).isOpen = false ∧
      isInit (s.userPassportData forBatchId user).encryptedNationality = true ∧
      isInit query = true ∧
      s1 = { s with
        decryptionContexts := upd s.decryptionContexts requestId
          ⟨forBatchId,
           hashCiphertexts
             [B32.fheEq (s.userPassportData forBatchId user).encryptedNationality query]
             s.selfAddr,
           false⟩
        lastDecryptionRequestTime := upd s.lastDecryptionRequestTime user now } := by
  unfold requestVerifyNationality
  rcases hR : respectCooldown now (s.lastDecryptionRequestTime user) s.cooldownSeconds with e | u0
  · simp only [hR]
    split_ifs <;> simp_all
  · cases u0
    simp only [hR]
    split_ifs <;> simp_all <;> try exact eq_comm

lemma requestVerifyVisaStatus_ok_iff {s s1 : ContractState}
    {sender now user forBatchId requestId : Nat} {query : B32} :
    requestVerifyVisaStatus s sender now user forBatchId query requestId = .ok s1 ↔
      s.isProvider sender = true ∧ s.paused = false ∧
      respectCooldown now (s.lastDecryptionRequestTime user) s.cooldownSeconds = .ok () ∧
      ¬(forBatchId > s.currentBatchId ∨ forBatchId = 0) ∧
      (s.batches forBatchId).isOpen = false ∧
      isInit (s.userPassportData forBatchId user).encryptedVisaExpiryTimestamp = true ∧
      isInit query = true ∧
      s1 = { s with
        decryptionContexts := upd s.decryptionContexts requestId
          ⟨forBatchId,
           hashCiphertexts
             [B32.fheGe (s.userPassportData forBatchId user).encryptedVisaExpiryTimestamp query]
             s.selfAddr,
           false⟩
        lastDecryptionRequestTime := upd s.lastDecryptionRequestTime user now } := by
  unfold requestVerifyVisaStatus
  rcases hR : respectCooldown now (s.lastDecryptionRequestTime user) s.cooldownSeconds with e | u0
  · simp only [hR]
    split_ifs <;> simp_all
  · cases u0
    simp only [hR]
    split_ifs <;> simp_all <;> try exact eq_comm

lemma myCallback_ok_iff {cs : Nat → Nat → Nat → Bool} {s : ContractState}
    {sender requestId cleartexts proof : Nat} {out : ContractState × CompletionEv} :
    myCallback cs s sender requestId cleartexts proof = .ok out ↔
      (s.decryptionContexts requestId).processed = false ∧
      rebuildStateHashForCallback s requestId = (s.decryptionContexts requestId).stateHash ∧
      cs requestId cleartexts proof = true ∧
      out = ({ s with
               decryptionContexts := upd s.decryptionContexts requestId
                 { s.decryptionContexts requestId with processed := true } },
             ⟨requestId, (s.decryptionContexts requestId).batchId, sender,
              PassportAttribute.Nationality, decodeUint32 cleartexts⟩) := by
  unfold myCallback
  split_ifs with h1 h2 h3 <;> simp_all <;> try exact eq_comm

lemma map_fst_ok {α β ε : Type} {x : Except ε (α × β)} {a : α} :
    x.map Prod.fst = .ok a ↔ ∃ b, x = .ok (a, b) := by
  cases x with
  | error e => simp [Except.map]
  | ok p =>
    cases p with
    | mk p1 p2 =>
      simp only [Except.map, Except.ok.injEq, Prod.mk.injEq]
      constructor
      · rintro rfl
        exact ⟨p2, rfl, rfl⟩
      · rintro ⟨b, rfl, -⟩
        rfl

/-- Every successful step has one of six shapes: an administrative update, a
batch open, a batch close, a submission, a decryption request, or a callback. -/
lemma step_ok_cases {cs : Nat → Nat → Nat → Bool} {op : Op}
    {s s1 : ContractState} (h : step cs op s = .ok s1) :
    (oracleRequestId op = none ∧ namedUser op = none ∧
      ∃ ow f cd pz, s1 = { s with owner := ow, isProvider := f,
                                  cooldownSeconds := cd, paused := pz }) ∨
    (oracleRequestId op = none ∧ namedUser op = none ∧ s.currentBatchId + 1 < U ∧
      ∃ now, s1 = { s with
        currentBatchId := s.currentBatchId + 1
        batches := upd s.batches (s.currentBatchId + 1) ⟨true, now, 0⟩ }) ∨
    (oracleRequestId op = none ∧ namedUser op = none ∧
      (s.batches s.currentBatchId).isOpen = true ∧ s.currentBatchId + 1 < U ∧
      ∃ now, s1 = { s with
        currentBatchId := s.currentBatchId + 1
        batches := upd s.batches s.currentBatchId
          ⟨false, (s.batches s.currentBatchId).createdAt, now⟩ }) ∨
    (oracleRequestId op = none ∧
      ∃ now user e1 e2, namedUser op = some user ∧
        (s.batches s.currentBatchId).isOpen = true ∧
        s.hasSubmittedForBatch s.currentBatchId user = false ∧
        s1 = { s with
          userPassportData := upd2 s.userPassportData s.currentBatchId user ⟨e1, e2⟩
          hasSubmittedForBatch := upd2 s.hasSubmittedForBatch s.currentBatchId user true
          lastSubmissionTime := upd s.lastSubmissionTime user now }) ∨
    (∃ rid bid hsh user now, oracleRequestId op = some rid ∧ namedUser op = some user ∧
      s1 = { s with
        decryptionContexts := upd s.decryptionContexts rid ⟨bid, hsh, false⟩
        lastDecryptionRequestTime := upd s.lastDecryptionRequestTime user now }) ∨
    (oracleRequestId op = none ∧ namedUser op = none ∧
      ∃ rid, (s.decryptionContexts rid).processed = false ∧
        s1 = { s with
          decryptionContexts := upd s.decryptionContexts rid
            { s.decryptionContexts rid with processed := true } }) := by
  cases op with
  | transferOwnership sender newOwner =>
    simp only [step] at h
    obtain ⟨-, rfl⟩ := transferOwnership_ok_iff.mp h
    exact .inl ⟨rfl, rfl, newOwner, s.isProvider, s.cooldownSeconds, s.paused, rfl⟩
  | addProvider sender p =>
    simp only [step] at h
    obtain ⟨-, -, rfl⟩ := addProvider_ok_iff.mp h
    exact .inl ⟨rfl, rfl, s.owner, _, s.cooldownSeconds, s.paused, rfl⟩
  | removeProvider sender p =>
    simp only [step] at h
    obtain ⟨-, -, rfl⟩ := removeProvider_ok_iff.mp h
    exact .inl ⟨rfl, rfl, s.owner, _, s.cooldownSeconds, s.paused, rfl⟩
  | setCooldown sender v =>
    simp only [step] at h
    obtain ⟨-, -, rfl⟩ := setCooldown_ok_iff.mp h
    exact .inl ⟨rfl, rfl, s.owner, s.isProvider, v, s.paused, rfl⟩
  | pause sender =>
    simp only [step] at h
    obtain ⟨-, rfl⟩ := pause_ok_iff.mp h
    exact .inl ⟨rfl, rfl, s.owner, s.isProvider, s.cooldownSeconds, true, rfl⟩
  | unpause sender =>
    simp only [step] at h
    obtain ⟨-, rfl⟩ := unpause_ok_iff.mp h
    exact .inl ⟨rfl, rfl, s.owner, s.isProvider, s.cooldownSeconds, false, rfl⟩
  | openNewBatch sender now =>
    simp only [step] at h
    obtain ⟨-, hlt, rfl⟩ := openNewBatch_ok_iff.mp h
    exact .inr (.inl ⟨rfl, rfl, hlt, now, rfl⟩)
  | closeCurrentBatch sender now =>
    simp only [step] at h
    obtain ⟨-, hop, hlt, rfl⟩ := closeCurrentBatch_ok_iff.mp h
    exact .inr (.inr (.inl ⟨rfl, rfl, hop, hlt, now, rfl⟩))
  | submitPassportData sender now user e1 e2 =>
    simp only [step] at h
    obtain ⟨-, -, -, hop, hdup, -, -, rfl⟩ := submitPassportData_ok_iff.mp h
    exact .inr (.inr (.inr (.inl ⟨rfl, now, user, e1, e2, rfl, hop, hdup, rfl⟩)))
  | requestVerifyNationality sender now user b q rid =>
    simp only [step] at h
    obtain ⟨-, -, -, -, -, -, -, rfl⟩ := requestVerifyNationality_ok_iff.mp h
    exact .inr (.inr (.inr (.inr (.inl ⟨rid, b, _, user, now, rfl, rfl, rfl⟩))))
  | requestVerifyVisaStatus sender now user b q rid =>
    simp only [step] at h
    obtain ⟨-, -, -, -, -, -, -, rfl⟩ := requestVerifyVisaStatus_ok_iff.mp h
    exact .inr (.inr (.inr (.inr (.inl ⟨rid, b, _, user, now, rfl, rfl, rfl⟩))))
  | myCallback sender rid ct pf =>
    simp only [step] at h
    obtain ⟨ev, hmc⟩ := map_fst_ok.mp h
    obtain ⟨hp, -, -, hout⟩ := myCallback_ok_iff.mp hmc
    have h1 : s1 = _ := congrArg Prod.fst hout
    exact .inr (.inr (.inr (.inr (.inr ⟨rfl, rfl, rid, hp, h1⟩))))


lemma exec_cases (cs : Nat → Nat → Nat → Bool) (op : Op) (s : ContractState) :
    exec cs op s = s ∨ ∃ s1, step cs op s = .ok s1 ∧ exec cs op s = s1 := by
  unfold exec
  cases h : step cs op s with
  | error e => exact .inl rfl
  | ok s1 => exact .inr ⟨s1, rfl, rfl⟩

lemma exec_submitted (cs : Nat → Nat → Nat → Bool) (op : Op) {s : ContractState}
    {b u : Nat} (hf : s.hasSubmittedForBatch b u = true) :
    (exec cs op s).hasSubmittedForBatch b u = true ∧
    (exec cs op s).userPassportData b u = s.userPassportData b u := by
  rcases exec_cases cs op s with he | ⟨s1, hok, he⟩
  · rw [he]; exact ⟨hf, rfl⟩
  · rw [he]
    rcases step_ok_cases hok with ⟨-, -, ow, f, cd, pz, rfl⟩ | ⟨-, -, -, now, rfl⟩ |
      ⟨-, -, -, -, now, rfl⟩ | ⟨-, now, user, e1, e2, -, -, hdup, rfl⟩ |
      ⟨rid, bid, hsh, user, now, -, -, rfl⟩ | ⟨-, -, rid, -, rfl⟩
    · exact ⟨hf, rfl⟩
    · exact ⟨hf, rfl⟩
    · exact ⟨hf, rfl⟩
    · constructor
      · simp only [upd2]
        split_ifs with hc
        · rfl
        · exact hf
      · simp only [upd2]
        split_ifs with hc
        · rcases hc with ⟨rfl, rfl⟩
          rw [hdup] at hf
          cases hf
        · rfl
    · exact ⟨hf, rfl⟩
    · exact ⟨hf, rfl⟩

lemma run_submitted (cs : Nat → Nat → Nat → Bool) (ops : List Op) :
    ∀ s : ContractState, ∀ b u : Nat, s.hasSubmittedForBatch b u = true →
      (run cs s ops).hasSubmittedForBatch b u = true ∧
      (run cs s ops).userPassportData b u = s.userPassportData b u := by
  induction ops with
  | nil => exact fun s b u hf => ⟨hf, rfl⟩
  | cons op rest ih =>
    intro s b u hf
    obtain ⟨h1, h2⟩ := exec_submitted cs op hf
    obtain ⟨h3, h4⟩ := ih (exec cs op s) b u h1
    exact ⟨h3, h4.trans h2⟩

lemma exec_processed (cs : Nat → Nat → Nat → Bool) (op : Op) {s : ContractState}
    {rid : Nat} (hp : (s.decryptionContexts rid).processed = true)
    (hne : oracleRequestId op ≠ some rid) :
    ((exec cs op s).decryptionContexts rid).processed = true := by
  rcases exec_cases cs op s with he | ⟨s1, hok, he⟩
  · rw [he]; exact hp
  · rw [he]
    rcases step_ok_cases hok with ⟨-, -, ow, f, cd, pz, rfl⟩ | ⟨-, -, -, now, rfl⟩ |
      ⟨-, -, -, -, now, rfl⟩ | ⟨-, now, user, e1, e2, -, -, -, rfl⟩ |
      ⟨rid1, bid, hsh, user, now, hrid, -, rfl⟩ | ⟨-, -, rid1, -, rfl⟩
    · exact hp
    · exact hp
    · exact hp
    · exact hp
    · have : rid1 ≠ rid := fun hcc => hne (hrid.trans (by rw [hcc]))
      simp only [upd]
      split_ifs with hc
      · exact absurd hc.symm this
      · exact hp
    · simp only [upd]
      split_ifs with hc
      · rfl
      · exact hp

lemma run_processed (cs : Nat → Nat → Nat → Bool) (ops : List Op) :
    ∀ s : ContractState, ∀ rid : Nat, (s.decryptionContexts rid).processed = true →
      (∀ op ∈ ops, oracleRequestId op ≠ some rid) →
      ((run cs s ops).decryptionContexts rid).processed = true := by
  induction ops with
  | nil => exact fun s rid hp _ => hp
  | cons op rest ih =>
    intro s rid hp hne
    exact ih (exec cs op s) rid
      (exec_processed cs op hp (hne op (List.mem_cons_self op rest)))
      (fun o ho => hne o (List.mem_cons_of_mem op ho))

lemma exec_reserved (cs : Nat → Nat → Nat → Bool) (op : Op) {s : ContractState}
    {r : Nat} (hr : r ≤ s.currentBatchId) (hd : s.batches r = defaultBatch) :
    r ≤ (exec cs op s).currentBatchId ∧ (exec cs op s).batches r = defaultBatch := by
  rcases exec_cases cs op s with he | ⟨s1, hok, he⟩
  · rw [he]; exact ⟨hr, hd⟩
  · rw [he]
    rcases step_ok_cases hok with ⟨-, -, ow, f, cd, pz, rfl⟩ | ⟨-, -, -, now, rfl⟩ |
      ⟨-, -, hop, -, now, rfl⟩ | ⟨-, now, user, e1, e2, -, -, -, rfl⟩ |
      ⟨rid, bid, hsh, user, now, -, -, rfl⟩ | ⟨-, -, rid, -, rfl⟩
    · exact ⟨hr, hd⟩
    · refine ⟨le_trans hr (Nat.le_succ _), ?_⟩
      simp only [upd]
      split_ifs with hc
      · omega
      · exact hd
    · refine ⟨le_trans hr (Nat.le_succ _), ?_⟩
      simp only [upd]
      split_ifs with hc
      · rw [hc] at hd
        rw [hd] at hop
        cases hop
      · exact hd
    · exact ⟨hr, hd⟩
    · exact ⟨hr, hd⟩
    · exact ⟨hr, hd⟩

lemma run_reserved (cs : Nat → Nat → Nat → Bool) (ops : List Op) :
    ∀ s : ContractState, ∀ r : Nat, r ≤ s.currentBatchId →
      s.batches r = defaultBatch →
      r ≤ (run cs s ops).currentBatchId ∧ (run cs s ops).batches r = defaultBatch := by
  induction ops with
  | nil => exact fun s r hr hd => ⟨hr, hd⟩
  | cons op rest ih =>
    intro s r hr hd
    obtain ⟨h1, h2⟩ := exec_reserved cs op hr hd
    exact ih (exec cs op s) r h1 h2

lemma exec_lastTimes (cs : Nat → Nat → Nat → Bool) (op : Op) {s : ContractState}
    {a : Nat} (hne : namedUser op ≠ some a) :
    (exec cs op s).lastSubmissionTime a = s.lastSubmissionTime a ∧
    (exec cs op s).lastDecryptionRequestTime a = s.lastDecryptionRequestTime a := by
  rcases exec_cases cs op s with he | ⟨s1, hok, he⟩
  · rw [he]; exact ⟨rfl, rfl⟩
  · rw [he]
    rcases step_ok_cases hok with ⟨-, -, ow, f, cd, pz, rfl⟩ | ⟨-, -, -, now, rfl⟩ |
      ⟨-, -, -, -, now, rfl⟩ | ⟨-, now, user, e1, e2, husr, -, -, rfl⟩ |
      ⟨rid, bid, hsh, user, now, -, husr, rfl⟩ | ⟨-, -, rid, -, rfl⟩
    · exact ⟨rfl, rfl⟩
    · exact ⟨rfl, rfl⟩
    · exact ⟨rfl, rfl⟩
    · have hu : user ≠ a := fun hcc => hne (husr.trans (by rw [hcc]))
      refine ⟨?_, rfl⟩
      simp only [upd]
      split_ifs with hc
      · exact absurd hc.symm hu
      · rfl
    · have hu : user ≠ a := fun hcc => hne (husr.trans (by rw [hcc]))
      refine ⟨rfl, ?_⟩
      simp only [upd]
      split_ifs with hc
      · exact absurd hc.symm hu
      · rfl
    · exact ⟨rfl, rfl⟩

lemma run_lastTimes (cs : Nat → Nat → Nat → Bool) (ops : List Op) :
    ∀ s : ContractState, ∀ a : Nat, (∀ op ∈ ops, namedUser op ≠ some a) →
      (run cs s ops).lastSubmissionTime a = s.lastSubmissionTime a ∧
      (run cs s ops).lastDecryptionRequestTime a = s.lastDecryptionRequestTime a := by
  induction ops with
  | nil => exact fun s a _ => ⟨rfl, rfl⟩
  | cons op rest ih =>
    intro s a hne
    obtain ⟨h1, h2⟩ := exec_lastTimes cs op (hne op (List.mem_cons_self op rest))
    obtain ⟨h3, h4⟩ := ih (exec cs op s) a (fun o ho => hne o (List.mem_cons_of_mem op ho))
    exact ⟨h3.trans h1, h4.trans h2⟩

lemma exec_nosub (cs : Nat → Nat → Nat → Bool) (op : Op) {s : ContractState}
    (hinv : ∀ b u, s.hasSubmittedForBatch b u = false →
      s.userPassportData b u = defaultPassport) :
    ∀ b u, (exec cs op s).hasSubmittedForBatch b u = false →
      (exec cs op s).userPassportData b u = defaultPassport := by
  rcases exec_cases cs op s with he | ⟨s1, hok, he⟩
  · rw [he]; exact hinv
  · rw [he]
    rcases step_ok_cases hok with ⟨-, -, ow, f, cd, pz, rfl⟩ | ⟨-, -, -, now, rfl⟩ |
      ⟨-, -, -, -, now, rfl⟩ | ⟨-, now, user, e1, e2, -, -, -, rfl⟩ |
      ⟨rid, bid, hsh, user, now, -, -, rfl⟩ | ⟨-, -, rid, -, rfl⟩
    · exact hinv
    · exact hinv
    · exact hinv
    · intro b u hfb
      simp only [upd2] at hfb ⊢
      split_ifs with hc
      · rw [if_pos hc] at hfb
        cases hfb
      · rw [if_neg hc] at hfb
        exact hinv b u hfb
    · exact hinv
    · exact hinv

lemma run_nosub (cs : Nat → Nat → Nat → Bool) (ops : List Op) :
    ∀ s : ContractState,
      (∀ b u, s.hasSubmittedForBatch b u = false →
        s.userPassportData b u = defaultPassport) →
      ∀ b u, (run cs s ops).hasSubmittedForBatch b u = false →
        (run cs s ops).userPassportData b u = defaultPassport := by
  induction ops with
  | nil => exact fun s hinv => hinv
  | cons op rest ih => exact fun s hinv => ih (exec cs op s) (exec_nosub cs op hinv)

/-- In every reachable state, a `(batch, user)` slot without its submission
flag holds the all-zero default record. -/
lemma reachable_nosub {s : ContractState} (hs : Reachable s) :
    ∀ b u, s.hasSubmittedForBatch b u = false →
      s.userPassportData b u = defaultPassport := by
  obtain ⟨cs, d, t, a, ops, rfl⟩ := hs
  exact run_nosub cs ops _ (fun b u _ => rfl)


lemma exec_cbid_mono (cs : Nat → Nat → Nat → Bool) (op : Op) (s : ContractState) :
    s.currentBatchId ≤ (exec cs op s).currentBatchId := by
  rcases exec_cases cs op s with he | ⟨s1, hok, he⟩
  · rw [he]
  · rw [he]
    rcases step_ok_cases hok with ⟨-, -, ow, f, cd, pz, rfl⟩ | ⟨-, -, -, now, rfl⟩ |
      ⟨-, -, -, -, now, rfl⟩ | ⟨-, now, user, e1, e2, -, -, -, rfl⟩ |
      ⟨rid, bid, hsh, user, now, -, -, rfl⟩ | ⟨-, -, rid, -, rfl⟩ <;>
      simp [Nat.le_succ]

/-- The ids of batches opened by one call (empty unless the call is a
successful `openNewBatch`). -/
def openedBy (cs : Nat → Nat → Nat → Bool) (op : Op) (s : ContractState) : List Nat :=
  match op, step cs op s with
  | Op.openNewBatch _ _, .ok s1 => [s1.currentBatchId]
  | _, _ => []

/-- The ids of batches opened along a call sequence, in call order. -/
def openedIds (cs : Nat → Nat → Nat → Bool) : ContractState → List Op → List Nat
  | _, [] => []
  | s, op :: rest => openedBy cs op s ++ openedIds cs (exec cs op s) rest

lemma openedBy_cases (cs : Nat → Nat → Nat → Bool) (op : Op) (s : ContractState) :
    openedBy cs op s = [] ∨
    ∃ s1, step cs op s = .ok s1 ∧ exec cs op s = s1 ∧
      openedBy cs op s = [s1.currentBatchId] ∧
      s.currentBatchId < s1.currentBatchId := by
  cases op with
  | openNewBatch sender now =>
    cases h : step cs (.openNewBatch sender now) s with
    | error e =>
      left
      simp [openedBy, h]
    | ok s1 =>
      right
      refine ⟨s1, rfl, ?_, ?_, ?_⟩
      · simp [exec, h]
      · simp [openedBy, h]
      · simp only [step] at h
        obtain ⟨-, -, rfl⟩ := openNewBatch_ok_iff.mp h
        exact Nat.lt_succ_self _
  | transferOwnership sender x => left; rfl
  | addProvider sender x => left; rfl
  | removeProvider sender x => left; rfl
  | setCooldown sender x => left; rfl
  | pause sender => left; rfl
  | unpause sender => left; rfl
  | closeCurrentBatch sender now => left; rfl
  | submitPassportData sender now user e1 e2 => left; rfl
  | requestVerifyNationality sender now user b q rid => left; rfl
  | requestVerifyVisaStatus sender now user b q rid => left; rfl
  | myCallback sender rid ct pf => left; rfl

lemma openedIds_gt (cs : Nat → Nat → Nat → Bool) :
    ∀ ops : List Op, ∀ s : ContractState, ∀ i ∈ openedIds cs s ops,
      s.currentBatchId < i := by
  intro ops
  induction ops with
  | nil => intro s i hi; cases hi
  | cons op rest ih =>
    intro s i hi
    simp only [openedIds, List.mem_append] at hi
    rcases hi with hi | hi
    · rcases openedBy_cases cs op s with hob | ⟨s1, -, -, hob, hlt⟩
      · rw [hob] at hi; cases hi
      · rw [hob] at hi
        rcases List.mem_singleton.mp hi with rfl
        exact hlt
    · exact lt_of_le_of_lt (exec_cbid_mono cs op s) (ih (exec cs op s) i hi)

lemma openedIds_chain (cs : Nat → Nat → Nat → Bool) :
    ∀ ops : List Op, ∀ s : ContractState,
      List.Chain' (· < ·) (openedIds cs s ops) := by
  intro ops
  induction ops with
  | nil => intro s; simp [openedIds]
  | cons op rest ih =>
    intro s
    simp only [openedIds]
    rcases openedBy_cases cs op s with hob | ⟨s1, -, hex, hob, -⟩
    · rw [hob]
      simpa using ih (exec cs op s)
    · rw [hob, hex]
      refine List.chain'_cons'.mpr ⟨?_, ih s1⟩
      intro y hy
      exact openedIds_gt cs rest s1 y (List.mem_of_mem_head? hy)

lemma exec_above_default (cs : Nat → Nat → Nat → Bool) (op : Op) {s : ContractState}
    (hinv : ∀ b, s.currentBatchId < b → s.batches b = defaultBatch) :
    ∀ b, (exec cs op s).currentBatchId < b →
      (exec cs op s).batches b = defaultBatch := by
  rcases exec_cases cs op s with he | ⟨s1, hok, he⟩
  · rw [he]; exact hinv
  · rw [he]
    rcases step_ok_cases hok with ⟨-, -, ow, f, cd, pz, rfl⟩ | ⟨-, -, -, now, rfl⟩ |
      ⟨-, -, -, -, now, rfl⟩ | ⟨-, now, user, e1, e2, -, -, -, rfl⟩ |
      ⟨rid, bid, hsh, user, now, -, -, rfl⟩ | ⟨-, -, rid, -, rfl⟩
    · exact hinv
    · intro b hb
      dsimp only at hb ⊢
      simp only [upd]
      split_ifs with hc
      · omega
      · exact hinv b (by omega)
    · intro b hb
      dsimp only at hb ⊢
      simp only [upd]
      split_ifs with hc
      · omega
      · exact hinv b (by omega)
    · exact hinv
    · exact hinv
    · exact hinv

lemma run_above_default (cs : Nat → Nat → Nat → Bool) (ops : List Op) :
    ∀ s : ContractState,
      (∀ b, s.currentBatchId < b → s.batches b = defaultBatch) →
      ∀ b, (run cs s ops).currentBatchId < b →
        (run cs s ops).batches b = defaultBatch := by
  induction ops with
  | nil => exact fun s hinv => hinv
  | cons op rest ih =>
    exact fun s hinv => ih (exec cs op s) (exec_above_default cs op hinv)

/-- In every reachable state, every batch id above `currentBatchId` is an
untouched default slot. -/
lemma reachable_above_default {s : ContractState} (hs : Reachable s) :
    ∀ b, s.currentBatchId < b → s.batches b = defaultBatch := by
  obtain ⟨cs, d, t, a, ops, rfl⟩ := hs
  refine run_above_default cs ops _ ?_
  intro b hb
  simp only [initialState] at hb
  simp only [initialState, upd]
  split_ifs with hc
  · omega
  · rfl


/-! ### Concrete fixtures used by witnesses and counterexamples -/

/-- Deployment by owner `0` at time `0`, contract address `7`. -/
def exInit : ContractState := initialState 0 0 7

/-- `exInit` after the owner registers provider `9`. -/
def exProv : ContractState := exec oracleTrue (.addProvider 0 9) exInit

/-- `exProv` after provider `9` submits for user `4` at time `30`. -/
def exSub : ContractState :=
  exec oracleTrue (.submitPassportData 9 30 4 (B32.word 5) (B32.word 6)) exProv

/-- `exSub` after the owner closes batch 1 at time `40`. -/
def exClosed : ContractState := exec oracleTrue (.closeCurrentBatch 0 40) exSub

/-- `exClosed` after provider `9` requests nationality verification for user
`4` against batch 1 at time `70`; the oracle assigns request id `11`. -/
def exReq : ContractState :=
  exec oracleTrue (.requestVerifyNationality 9 70 4 1 (B32.word 5) 11) exClosed

/-- `exInit` after the owner closes batch 1 at time `5` without a prior open. -/
def exClosed0 : ContractState := exec oracleTrue (.closeCurrentBatch 0 5) exInit

/-- A state with a pending decryption context whose stored hash equals the
placeholder hash, so that the callback can succeed. -/
def exPending : ContractState :=
  { exInit with
    decryptionContexts :=
      upd exInit.decryptionContexts 11 ⟨1, hashCiphertexts [B32.word 0] 7, false⟩ }

/-- `exPending` after a successful callback for request id `11`. -/
def exDone : ContractState := exec oracleTrue (.myCallback 9 11 99 3) exPending

/-! ### Claims -/

/-- **C2** (counterexample): starting from deployment, one `openNewBatch`
leaves both batch 1 and batch 2 open, so it is not the case that exactly one
batch has `isOpen = true` at every observation point. -/
theorem c2_counterexample_two_open_batches :
    ¬ ∃! b : Nat,
        ((run oracleTrue exInit [.openNewBatch 0 5]).batches b).isOpen = true := by
  rintro ⟨b, -, huniq⟩
  have h1 : (1 : Nat) = b := huniq 1 (by decide)
  have h2 : (2 : Nat) = b := huniq 2 (by decide)
  omega

/-- **C2** (amended): for every call sequence from the constructed state, the
ids of the batches that are opened (batch 1 at construction, then one id per
successful `openNewBatch`) strictly increase and are never reused; the claim's
other half — exactly one open batch at every observation point — is refuted by
the counterexample. -/
theorem c2_opened_ids_strictly_increase (cs : Nat → Nat → Nat → Bool)
    (d t a : Nat) (ops : List Op) :
    List.Chain' (· < ·) (1 :: openedIds cs (initialState d t a) ops) ∧
    List.Pairwise (· ≠ ·) (1 :: openedIds cs (initialState d t a) ops) := by
  have hchain : List.Chain' (· < ·) (1 :: openedIds cs (initialState d t a) ops) := by
    refine List.chain'_cons'.mpr ⟨?_, openedIds_chain cs ops _⟩
    intro y hy
    have hgt := openedIds_gt cs ops _ y (List.mem_of_mem_head? hy)
    simpa [initialState] using hgt
  exact ⟨hchain, (List.chain'_iff_pairwise.mp hchain).imp ne_of_lt⟩

/-- **C5**: once `hasSubmittedForBatch[b][u]` is set, no sequence of contract
calls ever changes `userPassportData[b][u]` (and the flag never clears); and a
successful `submitPassportData` requires the flag to have been clear, sets it,
and stores exactly the submitted record — so at most one submission per
`(batchId, user)` ever succeeds and the stored record is immutable. -/
theorem c5_submit_once_and_immutable :
    (∀ (cs : Nat → Nat → Nat → Bool) (s : ContractState) (b u : Nat) (ops : List Op),
      s.hasSubmittedForBatch b u = true →
      (run cs s ops).hasSubmittedForBatch b u = true ∧
      (run cs s ops).userPassportData b u = s.userPassportData b u) ∧
    (∀ (s s1 : ContractState) (sender now user : Nat) (e1 e2 : B32),
      submitPassportData s sender now user e1 e2 = .ok s1 →
      s.hasSubmittedForBatch s.currentBatchId user = false ∧
      s1.hasSubmittedForBatch s.currentBatchId user = true ∧
      s1.userPassportData s.currentBatchId user = ⟨e1, e2⟩) := by
  constructor
  · intro cs s b u ops hf
    exact run_submitted cs ops s b u hf
  · intro s s1 sender now user e1 e2 h
    obtain ⟨-, -, -, -, hdup, -, -, rfl⟩ := submitPassportData_ok_iff.mp h
    refine ⟨hdup, ?_, ?_⟩ <;> simp [upd2]

/-- Witness for C5 at a concrete run: provider 9 submits for user 4 in batch
1; the flag was clear before, set after, and the record survives a later
unrelated call. -/
theorem c5_submit_once_and_immutable_witness :
    exProv.hasSubmittedForBatch exProv.currentBatchId 4 = false ∧
    exSub.hasSubmittedForBatch exProv.currentBatchId 4 = true ∧
    (run oracleTrue exSub [.setCooldown 0 60]).userPassportData 1 4
      = exSub.userPassportData 1 4 := by
  obtain ⟨h1, h2, -⟩ :=
    c5_submit_once_and_immutable.2 exProv exSub 9 30 4 (B32.word 5) (B32.word 6) rfl
  exact ⟨h1, h2,
    (c5_submit_once_and_immutable.1 oracleTrue exSub 1 4 [.setCooldown 0 60]
      (by decide)).2⟩

/-- **C9** (counterexample): `openNewBatch` then a successful
`closeCurrentBatch` leaves batch 1 still open, refuting the claim's part that
after a successful close and before the next open no batch is open. -/
theorem c9_counterexample_open_batch_survives_close :
    step oracleTrue (.closeCurrentBatch 0 6) (run oracleTrue exInit [.openNewBatch 0 5])
      = .ok (run oracleTrue exInit [.openNewBatch 0 5, .closeCurrentBatch 0 6]) ∧
    ((run oracleTrue exInit [.openNewBatch 0 5, .closeCurrentBatch 0 6]).batches 1).isOpen
      = true := ⟨rfl, rfl⟩

/-- **C9** (amended): after a successful `closeCurrentBatch` from a reachable
state, `currentBatchId` names a batch that was never created (the default
record: `isOpen = false`, `createdAt = 0`); every `submitPassportData` passing
the provider/pause/cooldown guards fails with `BatchClosed`; a second
`closeCurrentBatch` by the owner fails with `BatchClosed`; and the reserved id
is permanently skipped — no later call sequence ever opens it.  (Batches other
than the closed current one may remain open, so the claim's "no batch is open"
is refuted by the counterexample.) -/
theorem c9_after_close_reserved_id_never_opened
    (s s1 : ContractState) (sender now : Nat)
    (hreach : Reachable s)
    (hclose : closeCurrentBatch s sender now = .ok s1) :
    s1.batches s1.currentBatchId = defaultBatch ∧
    (∀ sender2 now2 user : Nat, ∀ e1 e2 : B32,
      s1.isProvider sender2 = true → s1.paused = false →
      respectCooldown now2 (s1.lastSubmissionTime user) s1.cooldownSeconds = .ok () →
      submitPassportData s1 sender2 now2 user e1 e2 = .error .BatchClosed) ∧
    (∀ now3 : Nat, closeCurrentBatch s1 s1.owner now3 = .error .BatchClosed) ∧
    (∀ (cs2 : Nat → Nat → Nat → Bool) (ops : List Op),
      (run cs2 s1 ops).batches s1.currentBatchId = defaultBatch) := by
  obtain ⟨hsown, hopen, hlt, hs1⟩ := closeCurrentBatch_ok_iff.mp hclose
  have hcb : s1.currentBatchId = s.currentBatchId + 1 := by rw [hs1]
  have hbat : s1.batches
      = upd s.batches s.currentBatchId
          ⟨false, (s.batches s.currentBatchId).createdAt, now⟩ := by rw [hs1]
  have hdefb : s1.batches s1.currentBatchId = defaultBatch := by
    rw [hbat, hcb]
    have habove := reachable_above_default hreach (s.currentBatchId + 1) (Nat.lt_succ_self _)
    simp only [upd]
    split_ifs with hc
    · omega
    · exact habove
  refine ⟨hdefb, ?_, ?_, ?_⟩
  · intro sender2 now2 user e1 e2 hprov hpz hcool
    have hop : (s1.batches s1.currentBatchId).isOpen = false := by rw [hdefb]; rfl
    unfold submitPassportData
    rw [hprov, hpz, hcool, hop]
    rfl
  · intro now3
    have hop : (s1.batches s1.currentBatchId).isOpen = false := by rw [hdefb]; rfl
    unfold closeCurrentBatch
    rw [hop]
    simp
  · intro cs2 ops
    exact (run_reserved cs2 ops _ _ le_rfl hdefb).2

/-- Witness for C9 at a concrete run: the owner closes batch 1 right after
deployment; batch 2 was never created, a second close fails with
`BatchClosed`, and batch 2 is still default after further calls. -/
theorem c9_after_close_witness :
    exClosed0.batches exClosed0.currentBatchId = defaultBatch ∧
    closeCurrentBatch exClosed0 exClosed0.owner 9 = .error .BatchClosed ∧
    (run oracleTrue exClosed0 [.openNewBatch 0 8]).batches exClosed0.currentBatchId
      = defaultBatch := by
  obtain ⟨h1, -, h3, h4⟩ :=
    c9_after_close_reserved_id_never_opened exInit exClosed0 0 5
      ⟨oracleTrue, 0, 0, 7, [], rfl⟩ rfl
  exact ⟨h1, h3 9, h4 oracleTrue [.openNewBatch 0 8]⟩


lemma rebuild_ne_zero (s : ContractState) (rid : Nat) :
    rebuildStateHashForCallback s rid ≠ B32.word 0 := by
  simp [rebuildStateHashForCallback, hashCiphertexts]

/-- **C1** (code bug): a nationality-verification request succeeds and stores a
binding hash over the freshly derived ciphertext; with **no** intervening state
change the callback for that request already fails with `StateMismatch`,
because `_rebuildStateHashForCallback` hashes a placeholder `bytes32(0)`
instead of the requested ciphertext — so an unchanged state does not make the
recomputed hash equal the stored one, contrary to the claim. -/
theorem c1_callback_rejects_unchanged_state :
    requestVerifyNationality exClosed 9 70 4 1 (B32.word 5) 11 = .ok exReq ∧
    (exReq.decryptionContexts 11).processed = false ∧
    (exReq.decryptionContexts 11).stateHash
      = hashCiphertexts [B32.fheEq (B32.word 5) (B32.word 5)] 7 ∧
    rebuildStateHashForCallback exReq 11 = hashCiphertexts [B32.word 0] 7 ∧
    myCallback oracleTrue exReq 9 11 99 3 = .error .StateMismatch :=
  ⟨rfl, rfl, rfl, rfl, rfl⟩

/-- **C3**: a callback for an already-processed context fails with
`ReplayDetected`; a successful callback flips `processed` from false to true;
a callback for an unknown (never-created) request id fails; and after a
success, as long as the oracle never reuses the request id for a new
verification request, every further callback for it fails with
`ReplayDetected` — so `myCallback` succeeds at most once per request id. -/
theorem c3_callback_at_most_once :
    (∀ (cs : Nat → Nat → Nat → Bool) (s : ContractState) (sender rid ct pf : Nat),
      (s.decryptionContexts rid).processed = true →
      myCallback cs s sender rid ct pf = .error .ReplayDetected) ∧
    (∀ (cs : Nat → Nat → Nat → Bool) (s : ContractState) (sender rid ct pf : Nat)
        (out : ContractState × CompletionEv),
      myCallback cs s sender rid ct pf = .ok out →
      (s.decryptionContexts rid).processed = false ∧
      (out.1.decryptionContexts rid).processed = true) ∧
    (∀ (cs : Nat → Nat → Nat → Bool) (s : ContractState) (sender rid ct pf : Nat),
      s.decryptionContexts rid = defaultCtx →
      myCallback cs s sender rid ct pf = .error .StateMismatch) ∧
    (∀ (cs : Nat → Nat → Nat → Bool) (s : ContractState) (sender rid ct pf : Nat)
        (out : ContractState × CompletionEv),
      myCallback cs s sender rid ct pf = .ok out →
      ∀ ops : List Op, (∀ op ∈ ops, oracleRequestId op ≠ some rid) →
        ∀ sender2 ct2 pf2 : Nat,
          myCallback cs (run cs out.1 ops) sender2 rid ct2 pf2
            = .error .ReplayDetected) := by
  have hreplay : ∀ (cs : Nat → Nat → Nat → Bool) (s : ContractState)
      (sender rid ct pf : Nat),
      (s.decryptionContexts rid).processed = true →
      myCallback cs s sender rid ct pf = .error .ReplayDetected := by
    intro cs s sender rid ct pf hp
    unfold myCallback
    rw [hp]
    rfl
  have hflip : ∀ (cs : Nat → Nat → Nat → Bool) (s : ContractState)
      (sender rid ct pf : Nat) (out : ContractState × CompletionEv),
      myCallback cs s sender rid ct pf = .ok out →
      (s.decryptionContexts rid).processed = false ∧
      (out.1.decryptionContexts rid).processed = true := by
    intro cs s sender rid ct pf out h
    obtain ⟨hp, -, -, hout⟩ := myCallback_ok_iff.mp h
    refine ⟨hp, ?_⟩
    have h1 : out.1 = _ := congrArg Prod.fst hout
    rw [h1]
    simp [upd]
  refine ⟨hreplay, hflip, ?_, ?_⟩
  · intro cs s sender rid ct pf hdef
    unfold myCallback
    rw [hdef]
    simp only [defaultCtx]
    rw [if_neg (by simp)]
    rw [if_pos (rebuild_ne_zero s rid)]
  · intro cs s sender rid ct pf out h ops hnone sender2 ct2 pf2
    have hpost := (hflip cs s sender rid ct pf out h).2
    exact hreplay cs _ sender2 rid ct2 pf2 (run_processed cs ops out.1 rid hpost hnone)

/-- Witness for C3 at concrete inputs: a crafted pending context whose stored
hash equals the placeholder hash lets the callback succeed once; the repeat
callback fails with `ReplayDetected`, and a never-created request id is
rejected with `StateMismatch`. -/
theorem c3_callback_at_most_once_witness :
    ((exPending.decryptionContexts 11).processed = false ∧
      (exDone.decryptionContexts 11).processed = true) ∧
    myCallback oracleTrue exDone 9 11 99 3 = .error .ReplayDetected ∧
    myCallback oracleTrue exInit 9 500 99 3 = .error .StateMismatch := by
  refine ⟨?_, ?_, ?_⟩
  · exact c3_callback_at_most_once.2.1 oracleTrue exPending 9 11 99 3
      (exDone, ⟨11, 1, 9, PassportAttribute.Nationality, 99⟩) rfl
  · have h := c3_callback_at_most_once.2.2.2 oracleTrue exPending 9 11 99 3
      (exDone, ⟨11, 1, 9, PassportAttribute.Nationality, 99⟩) rfl [] (by simp) 9 99 3
    exact h
  · exact c3_callback_at_most_once.2.2.1 oracleTrue exInit 9 500 99 3 rfl

/-- **C8**: `myCallback` applies no caller authorisation — it can never fail
with `NotOwner`, `NotProvider`, `Paused` or `CooldownActive`; its acceptance
and resulting state are independent of the caller; and on success the
`DecryptionCompleted` event carries the callback caller (`msg.sender`) in the
user field (the requesting user is not stored in the context at all). -/
theorem c8_callback_no_auth_reports_sender :
    (∀ (cs : Nat → Nat → Nat → Bool) (s : ContractState) (sender rid ct pf : Nat),
      myCallback cs s sender rid ct pf ≠ .error .NotOwner ∧
      myCallback cs s sender rid ct pf ≠ .error .NotProvider ∧
      myCallback cs s sender rid ct pf ≠ .error .Paused ∧
      myCallback cs s sender rid ct pf ≠ .error .CooldownActive) ∧
    (∀ (cs : Nat → Nat → Nat → Bool) (s : ContractState) (sender1 sender2 rid ct pf : Nat),
      (myCallback cs s sender1 rid ct pf).map Prod.fst
        = (myCallback cs s sender2 rid ct pf).map Prod.fst) ∧
    (∀ (cs : Nat → Nat → Nat → Bool) (s : ContractState) (sender rid ct pf : Nat)
        (out : ContractState × CompletionEv),
      myCallback cs s sender rid ct pf = .ok out → out.2.user = sender) := by
  refine ⟨?_, ?_, ?_⟩
  · intro cs s sender rid ct pf
    unfold myCallback
    split_ifs <;> simp
  · intro cs s sender1 sender2 rid ct pf
    unfold myCallback
    split_ifs <;> rfl
  · intro cs s sender rid ct pf out h
    obtain ⟨-, -, -, hout⟩ := myCallback_ok_iff.mp h
    have h2 : out.2 = _ := congrArg Prod.snd hout
    rw [h2]

/-- Witness for C8 at a concrete success: caller `9` is neither owner nor a
provider in `exPending`, yet the callback succeeds and the event's user field
is `9`. -/
theorem c8_callback_no_auth_witness :
    exPending.isProvider 9 = false ∧ exPending.owner = 0 ∧
    (⟨11, 1, 9, PassportAttribute.Nationality, 99⟩ : CompletionEv).user = 9 := by
  refine ⟨by decide, by decide, ?_⟩
  exact c8_callback_no_auth_reports_sender.2.2 oracleTrue exPending 9 11 99 3
    (exDone, ⟨11, 1, 9, PassportAttribute.Nationality, 99⟩) rfl


lemma respectCooldown_ok_iff {now lastTime cooldown : Nat} :
    respectCooldown now lastTime cooldown = .ok () ↔
      lastTime + cooldown < U ∧ lastTime + cooldown ≤ now := by
  unfold respectCooldown
  split_ifs with h1 h2 <;> simp <;> omega

lemma respectCooldown_active {now lastTime cooldown : Nat}
    (hU : lastTime + cooldown < U) (hlt : now < lastTime + cooldown) :
    respectCooldown now lastTime cooldown = .error .CooldownActive := by
  unfold respectCooldown
  rw [if_neg (by omega), if_pos hlt]

/-- **C4** (counterexample): with the default 30-second cooldown, provider 9's
submission for user 4 succeeds at `t = 30`; the repeat submission at
`t + 10 = 40` fails with `CooldownActive`, not with the duplicate-submission
string revert, because the `respectCooldown` modifier runs before the
duplicate check. -/
theorem c4_counterexample_cooldown_not_duplicate :
    exProv.cooldownSeconds = 30 ∧
    submitPassportData exProv 9 30 4 (B32.word 5) (B32.word 6) = .ok exSub ∧
    submitPassportData exSub 9 40 4 (B32.word 5) (B32.word 6)
      = .error .CooldownActive ∧
    Err.CooldownActive ≠ Err.RevertMsg duplicateSubmissionMsg :=
  ⟨rfl, rfl, rfl, by decide⟩

/-- **C4** (amended): after a successful submission for user `u` at time `t`
with `cooldownSeconds = 30`, the repeat submission at `t + 10` fails with
`CooldownActive` — the cooldown modifier runs before the duplicate check; the
duplicate check itself is independent of timing and fires once the window has
passed, with its own distinct failure; and the distinct preconditions of
`submitPassportData` surface pairwise distinct failures. -/
theorem c4_cooldown_fires_before_duplicate
    (s s1 : ContractState) (sender t user : Nat) (e1 e2 : B32)
    (hcd : s.cooldownSeconds = 30)
    (hU : t + 30 < U)
    (hok : submitPassportData s sender t user e1 e2 = .ok s1) :
    (∀ e3 e4 : B32,
      submitPassportData s1 sender (t + 10) user e3 e4 = .error .CooldownActive) ∧
    (∀ t2 : Nat, ∀ e3 e4 : B32, t + 30 ≤ t2 →
      submitPassportData s1 sender t2 user e3 e4
        = .error (.RevertMsg duplicateSubmissionMsg)) ∧
    List.Pairwise (· ≠ ·) [Err.NotProvider, Err.Paused, Err.CooldownActive,
      Err.BatchClosed, Err.RevertMsg duplicateSubmissionMsg, Err.NotInitialized] := by
  obtain ⟨hprov, hpz, hcool, hop, hdup, -, -, hs1⟩ := submitPassportData_ok_iff.mp hok
  have hprov1 : s1.isProvider = s.isProvider := by rw [hs1]
  have hpz1 : s1.paused = s.paused := by rw [hs1]
  have hcb1 : s1.currentBatchId = s.currentBatchId := by rw [hs1]
  have hbat1 : s1.batches = s.batches := by rw [hs1]
  have hcd1 : s1.cooldownSeconds = s.cooldownSeconds := by rw [hs1]
  have hlast1 : s1.lastSubmissionTime user = t := by
    rw [hs1]
    simp [upd]
  have hsub1 : s1.hasSubmittedForBatch s1.currentBatchId user = true := by
    rw [hs1]
    simp [upd2]
  refine ⟨?_, ?_, by decide⟩
  · intro e3 e4
    unfold submitPassportData
    rw [hprov1, hprov, hpz1, hpz, hlast1, hcd1, hcd,
      respectCooldown_active hU (by omega)]
    rfl
  · intro t2 e3 e4 ht2
    unfold submitPassportData
    rw [hprov1, hprov, hpz1, hpz, hlast1, hcd1, hcd,
      respectCooldown_ok_iff.mpr ⟨hU, ht2⟩]
    rw [show s1.batches s1.currentBatchId = s.batches s.currentBatchId by
      rw [hbat1, hcb1]]
    rw [hop, hsub1]
    rfl

/-- Witness for C4 (amended) at a concrete run: the repeat at `t + 10 = 40`
fails with `CooldownActive`, while the repeat at `t2 = 60` (past the window)
fails with the duplicate-submission string revert. -/
theorem c4_cooldown_fires_before_duplicate_witness :
    submitPassportData exSub 9 40 4 (B32.word 7) (B32.word 8)
      = .error .CooldownActive ∧
    submitPassportData exSub 9 60 4 (B32.word 7) (B32.word 8)
      = .error (.RevertMsg duplicateSubmissionMsg) := by
  obtain ⟨h1, h2, -⟩ :=
    c4_cooldown_fires_before_duplicate exProv exSub 9 30 4 (B32.word 5) (B32.word 6)
      rfl (by decide) rfl
  exact ⟨h1 (B32.word 7) (B32.word 8), h2 60 (B32.word 7) (B32.word 8) (by decide)⟩

/-- **C6**: for an authorised, unpaused provider passing the cooldown check and
a batch id in `1..currentBatchId`: if the batch is open, both `requestVerify*`
entry points fail with `BatchNotClosed`; if it is closed and the user has no
stored submission (reachable state, submission flag clear), both fail with
`NotInitialized`. -/
theorem c6_request_against_open_or_unsubmitted
    (s : ContractState) (sender now user forBatchId rid : Nat) (q : B32)
    (hprov : s.isProvider sender = true) (hpz : s.paused = false)
    (hcool : respectCooldown now (s.lastDecryptionRequestTime user) s.cooldownSeconds
      = .ok ())
    (hlo : 1 ≤ forBatchId) (hhi : forBatchId ≤ s.currentBatchId) :
    ((s.batches forBatchId).isOpen = true →
      requestVerifyNationality s sender now user forBatchId q rid
        = .error .BatchNotClosed ∧
      requestVerifyVisaStatus s sender now user forBatchId q rid
        = .error .BatchNotClosed) ∧
    (Reachable s → (s.batches forBatchId).isOpen = false →
      s.hasSubmittedForBatch forBatchId user = false →
      requestVerifyNationality s sender now user forBatchId q rid
        = .error .NotInitialized ∧
      requestVerifyVisaStatus s sender now user forBatchId q rid
        = .error .NotInitialized) := by
  have hrange : ¬(forBatchId > s.currentBatchId ∨ forBatchId = 0) := by omega
  constructor
  · intro hopen
    constructor
    · unfold requestVerifyNationality
      rw [hprov, hpz, hcool, if_neg hrange, hopen]
      rfl
    · unfold requestVerifyVisaStatus
      rw [hprov, hpz, hcool, if_neg hrange, hopen]
      rfl
  · intro hreach hclosed hnosub
    have hdata := reachable_nosub hreach forBatchId user hnosub
    constructor
    · unfold requestVerifyNationality
      rw [hprov, hpz, hcool, if_neg hrange, hclosed, hdata]
      rfl
    · unfold requestVerifyVisaStatus
      rw [hprov, hpz, hcool, if_neg hrange, hclosed, hdata]
      rfl

/-- Witness for C6 at concrete runs: a request against open batch 1 fails with
`BatchNotClosed`; after the close, a request for user 5 (who never submitted)
fails with `NotInitialized`. -/
theorem c6_request_against_open_or_unsubmitted_witness :
    requestVerifyNationality exProv 9 70 4 1 (B32.word 5) 11
      = .error .BatchNotClosed ∧
    requestVerifyVisaStatus exClosed 9 70 5 1 (B32.word 5) 11
      = .error .NotInitialized := by
  constructor
  · exact ((c6_request_against_open_or_unsubmitted exProv 9 70 4 1 11 (B32.word 5)
      (by decide) (by decide) rfl (by decide) (by decide)).1 (by decide)).1
  · exact ((c6_request_against_open_or_unsubmitted exClosed 9 70 5 1 11 (B32.word 5)
      (by decide) (by decide) rfl (by decide) (by decide)).2
      ⟨oracleTrue, 0, 0, 7,
        [.addProvider 0 9, .submitPassportData 9 30 4 (B32.word 5) (B32.word 6),
         .closeCurrentBatch 0 40], rfl⟩
      (by decide) (by decide)).2

/-- **C7** (counterexample): `setCooldown` accepts `2^256 - 1`; for a user
whose last submission was at time 1, the checked addition
`lastActionTime + cooldownSeconds` then overflows uint256, so the gated call
reverts with an arithmetic panic — not with `CooldownActive` as the claim
states (and the action is not allowed either). -/
theorem c7_counterexample_overflow_panics :
    (run oracleTrue exInit [.setCooldown 0 1, .addProvider 0 9,
        .submitPassportData 9 1 4 (B32.word 5) (B32.word 6),
        .setCooldown 0 (U - 1)]).lastSubmissionTime 4 = 1 ∧
    (run oracleTrue exInit [.setCooldown 0 1, .addProvider 0 9,
        .submitPassportData 9 1 4 (B32.word 5) (B32.word 6),
        .setCooldown 0 (U - 1)]).cooldownSeconds = U - 1 ∧
    submitPassportData
      (run oracleTrue exInit [.setCooldown 0 1, .addProvider 0 9,
        .submitPassportData 9 1 4 (B32.word 5) (B32.word 6),
        .setCooldown 0 (U - 1)]) 9 5 4 (B32.word 5) (B32.word 6)
      = .error .PanicArith ∧
    Err.PanicArith ≠ Err.CooldownActive ∧ ¬ (1 + (U - 1) ≤ 5) :=
  ⟨rfl, rfl, rfl, by decide, by decide⟩

/-- **C7** (amended): provided `lastActionTime + cooldownSeconds` stays inside
uint256, the cooldown gate passes iff `now ≥ lastActionTime + cooldownSeconds`
and otherwise fails with `CooldownActive` (on overflow it panics instead, see
the counterexample); and `setCooldown` by the owner fails with
`InvalidCooldown` iff the new value is zero, otherwise it updates the single
`cooldownSeconds` shared by every action kind. -/
theorem c7_cooldown_iff_and_setCooldown :
    (∀ now lastTime cooldown : Nat, lastTime + cooldown < U →
      ((respectCooldown now lastTime cooldown = .ok ()) ↔
        lastTime + cooldown ≤ now) ∧
      (now < lastTime + cooldown →
        respectCooldown now lastTime cooldown = .error .CooldownActive)) ∧
    (∀ (s : ContractState) (sender v : Nat), sender = s.owner →
      (v = 0 → setCooldown s sender v = .error .InvalidCooldown) ∧
      (v ≠ 0 → setCooldown s sender v = .ok { s with cooldownSeconds := v })) := by
  constructor
  · intro now lastTime cooldown hU
    constructor
    · rw [respectCooldown_ok_iff]
      exact ⟨fun h => h.2, fun h => ⟨hU, h⟩⟩
    · exact respectCooldown_active hU
  · intro s sender v hown
    constructor
    · intro hv
      unfold setCooldown
      rw [if_neg (by omega), if_pos hv]
    · intro hv
      unfold setCooldown
      rw [if_neg (by omega), if_neg hv]

/-- Witness for C7 (amended) at concrete values. -/
theorem c7_cooldown_iff_and_setCooldown_witness :
    ((respectCooldown 40 10 30 = .ok ()) ↔ 10 + 30 ≤ 40) ∧
    setCooldown exInit 0 0 = .error .InvalidCooldown ∧
    setCooldown exInit 0 60 = .ok { exInit with cooldownSeconds := 60 } := by
  refine ⟨(c7_cooldown_iff_and_setCooldown.1 40 10 30 (by decide)).1, ?_, ?_⟩
  · exact (c7_cooldown_iff_and_setCooldown.2 exInit 0 0 rfl).1 rfl
  · exact (c7_cooldown_iff_and_setCooldown.2 exInit 0 60 rfl).2 (by decide)

/-- **C10**: an address never named by any call keeps the default last-action
times `0`; hence the first gated call naming it succeeds only when
`block.timestamp ≥ cooldownSeconds`, and for an authorised, unpaused provider
at any earlier timestamp the call fails with `CooldownActive` although the
address never acted before. -/
theorem c10_fresh_user_first_action :
    (∀ (cs : Nat → Nat → Nat → Bool) (d t a : Nat) (ops : List Op) (addr : Nat),
      (∀ op ∈ ops, namedUser op ≠ some addr) →
      (run cs (initialState d t a) ops).lastSubmissionTime addr = 0 ∧
      (run cs (initialState d t a) ops).lastDecryptionRequestTime addr = 0) ∧
    (∀ (s s1 : ContractState) (sender now user : Nat) (e1 e2 : B32),
      s.lastSubmissionTime user = 0 →
      submitPassportData s sender now user e1 e2 = .ok s1 →
      s.cooldownSeconds ≤ now) ∧
    (∀ (s s1 : ContractState) (sender now user fb rid : Nat) (q : B32),
      s.lastDecryptionRequestTime user = 0 →
      (requestVerifyNationality s sender now user fb q rid = .ok s1 ∨
       requestVerifyVisaStatus s sender now user fb q rid = .ok s1) →
      s.cooldownSeconds ≤ now) ∧
    (∀ (s : ContractState) (sender now user : Nat) (e1 e2 : B32),
      s.lastSubmissionTime user = 0 → s.isProvider sender = true →
      s.paused = false → s.cooldownSeconds < U → now < s.cooldownSeconds →
      submitPassportData s sender now user e1 e2 = .error .CooldownActive) ∧
    (∀ (s : ContractState) (sender now user fb rid : Nat) (q : B32),
      s.lastDecryptionRequestTime user = 0 → s.isProvider sender = true →
      s.paused = false → s.cooldownSeconds < U → now < s.cooldownSeconds →
      requestVerifyNationality s sender now user fb q rid = .error .CooldownActive ∧
      requestVerifyVisaStatus s sender now user fb q rid = .error .CooldownActive) := by
  refine ⟨?_, ?_, ?_, ?_, ?_⟩
  · intro cs d t a ops addr hne
    exact run_lastTimes cs ops (initialState d t a) addr hne
  · intro s s1 sender now user e1 e2 hzero hok
    obtain ⟨-, -, hcool, -⟩ := submitPassportData_ok_iff.mp hok
    have h := respectCooldown_ok_iff.mp hcool
    omega
  · intro s s1 sender now user fb rid q hzero hok
    rcases hok with hok | hok
    · obtain ⟨-, -, hcool, -⟩ := requestVerifyNationality_ok_iff.mp hok
      have h := respectCooldown_ok_iff.mp hcool
      omega
    · obtain ⟨-, -, hcool, -⟩ := requestVerifyVisaStatus_ok_iff.mp hok
      have h := respectCooldown_ok_iff.mp hcool
      omega
  · intro s sender now user e1 e2 hzero hprov hpz hcdU hlt
    unfold submitPassportData
    rw [hprov, hpz, hzero, respectCooldown_active (by omega) (by omega)]
    rfl
  · intro s sender now user fb rid q hzero hprov hpz hcdU hlt
    constructor
    · unfold requestVerifyNationality
      rw [hprov, hpz, hzero, respectCooldown_active (by omega) (by omega)]
      rfl
    · unfold requestVerifyVisaStatus
      rw [hprov, hpz, hzero, respectCooldown_active (by omega) (by omega)]
      rfl

/-- Witness for C10 at concrete runs: after a call sequence never naming
address 8, its clocks are still 0; the first submission naming 8 at `t = 10`
(before the 30-second default cooldown has ever elapsed) fails with
`CooldownActive`, and the successful first submission for user 4 happened at
`t = 30 ≥ cooldownSeconds`. -/
theorem c10_fresh_user_first_action_witness :
    exSub.lastSubmissionTime 8 = 0 ∧ exSub.lastDecryptionRequestTime 8 = 0 ∧
    submitPassportData exProv 9 10 8 (B32.word 5) (B32.word 6)
      = .error .CooldownActive ∧
    exProv.cooldownSeconds ≤ 30 := by
  obtain ⟨h1, h2⟩ := c10_fresh_user_first_action.1 oracleTrue 0 0 7
    [.addProvider 0 9, .submitPassportData 9 30 4 (B32.word 5) (B32.word 6)] 8
    (by intro op hop; fin_cases hop <;> decide)
  refine ⟨h1, h2, ?_, ?_⟩
  · exact c10_fresh_user_first_action.2.2.2.1 exProv 9 10 8 (B32.word 5) (B32.word 6)
      rfl (by decide) (by decide) (by decide) (by decide)
  · exact c10_fresh_user_first_action.2.1 exProv exSub 9 30 4 (B32.word 5) (B32.word 6)
      rfl rfl

end TravelPass
